import Mathlib

/-!
Shallow embedding of the invoice-field reconciliation pipeline of
`app2.py`: the response parser (`parse_gemini_response`), the
validation/fallback stage (`validate_extracted_data`), the GST total
fallback (`calculate_total_gst_from_text`), the date normalizer
(`format_date_to_ymd`) and the batch summary
(`calculate_summary_statistics`), together with theorems settling the
frozen claims about them.

Modelling conventions:
* Python strings are modelled as `List Char` internally, `String` at the
  API edge.
* Python `float` values reached by this code are finite decimals obtained
  from `float()` on digit/dot strings and closed under `+` and `-`; they
  are modelled exactly by the decimal type `Dec` (integer numerator over a
  power of ten).  The rational value of a `Dec` is given by `Dec.val`.
* Python `dict` objects parsed from JSON are modelled by the `JObj` part
  of the mutual JSON value type `JVal`.
* The specific regular expressions used by the code (character classes,
  greedy `*`/`+`/`?`, a single trailing capture group, `re.IGNORECASE`)
  are modelled by an executable greedy backtracking matcher over an item
  list (`SItem`), with `re.search` = leftmost match and `re.findall` =
  repeated non-overlapping search.  Fuel arguments make every function
  structurally recursive; the fuel supplied at call sites is always
  sufficient (one unit per consumed character or item).
-/

/-! ## Python-style character and string helpers -/

/-- ASCII decimal digit, the class `[0-9]` (also `\d` on this data). -/
def asciiDigit (c : Char) : Bool := '0' ≤ c && c ≤ '9'

/-- ASCII uppercase letter, the class `[A-Z]` without `re.IGNORECASE`. -/
def asciiUpper (c : Char) : Bool := 'A' ≤ c && c ≤ 'Z'

/-- ASCII lowercase letter. -/
def asciiLower (c : Char) : Bool := 'a' ≤ c && c ≤ 'z'

/-- ASCII letter, the class `[A-Za-z]` (with or without `re.IGNORECASE`). -/
def asciiAlpha (c : Char) : Bool := asciiUpper c || asciiLower c

/-- Python `\s` (ASCII range): space, tab, newline, carriage return,
vertical tab, form feed. -/
def pws (c : Char) : Bool :=
  [' ', '\t', '\n', '\r', '\x0b', '\x0c'].contains c

/-- ASCII-only lowercasing, as applied by `str.lower` / `re.IGNORECASE`
to the ASCII text this code manipulates. -/
def lowerC (c : Char) : Char := if asciiUpper c then Char.ofNat (c.toNat + 32) else c

/-- Python `str.lower` on a character list. -/
def lowerL (cs : List Char) : List Char := cs.map lowerC

/-- Python `str.strip()` with no argument: remove leading and trailing
whitespace. -/
def pyStrip (cs : List Char) : List Char :=
  ((cs.dropWhile pws).reverse.dropWhile pws).reverse

/-- Fuel-driven worker for `pyReplace`; one fuel unit per character of the
subject suffices because the pattern is nonempty in every use. -/
def pyReplaceAux (pat rep : List Char) : Nat → List Char → List Char
  | 0, cs => cs
  | f + 1, cs =>
    if pat ≠ [] && pat.isPrefixOf cs then
      rep ++ pyReplaceAux pat rep f (cs.drop pat.length)
    else
      match cs with
      | [] => []
      | c :: cs' => c :: pyReplaceAux pat rep f cs'

/-- Python `str.replace(pat, rep)`: replace every non-overlapping
occurrence, scanning left to right. -/
def pyReplace (cs pat rep : List Char) : List Char :=
  pyReplaceAux pat rep (cs.length + 1) cs

/-- Python `needle in hay` on strings: contiguous substring test. -/
def pyInStr (needle : List Char) : List Char → Bool
  | [] => needle.isEmpty
  | cs@(_ :: cs') => needle.isPrefixOf cs || pyInStr needle cs'

/-- Python `str.split()` with no argument: split on whitespace runs,
dropping empty pieces. -/
def pySplit : List Char → List (List Char)
  | [] => []
  | c :: cs =>
    if pws c then pySplit cs
    else
      match pySplit cs with
      | [] => [[c]]
      | w :: ws =>
        match cs with
        | [] => [[c]]
        | c' :: _ => if pws c' then [c] :: w :: ws else (c :: w) :: ws

/-- Python `str.zfill(2)` on the sign-free tokens this code feeds it:
left-pad with `'0'` to length two. -/
def zfill2 (cs : List Char) : List Char :=
  if cs.length ≥ 2 then cs else List.replicate (2 - cs.length) '0' ++ cs

/-- Python `int(s)` on the sign-free, whitespace-free tokens this code
feeds it: all-digit nonempty strings convert, anything else raises
(modelled as `none`). -/
def pyInt? (cs : List Char) : Option Nat :=
  if cs ≠ [] && cs.all asciiDigit then
    some (cs.foldl (fun acc c => acc * 10 + (c.toNat - 48)) 0)
  else none

/-- Decimal digit character for `n < 10`. -/
def digitChar (n : Nat) : Char := Char.ofNat (48 + n)

/-- Decimal rendering of a natural number (fuel-driven, always enough). -/
def natDigitsAux : Nat → Nat → List Char
  | 0, _ => []
  | f + 1, n => if n < 10 then [digitChar n] else natDigitsAux f (n / 10) ++ [digitChar (n % 10)]

/-- Decimal rendering of a natural number as characters. -/
def natToChars (n : Nat) : List Char := natDigitsAux (n + 1) n

/-- Two-digit zero-padded rendering (for month/day in `strftime`). -/
def pad2 (n : Nat) : List Char := if n < 10 then ['0', digitChar n] else natToChars n

/-! ## Exact decimals standing in for the Python floats of this code

Every float reached by the modelled code originates from `float()` on a
digit/dot capture and is only added, subtracted or compared; all of that
is exact on decimals, so `Dec` models it without loss. -/

/-- Exact decimal number: `num / 10 ^ exp`. -/
structure Dec where
  num : Int
  exp : Nat
deriving DecidableEq, Repr

/-- Rational value of a decimal. -/
def Dec.val (d : Dec) : ℚ := (d.num : ℚ) / ((10 : ℚ) ^ d.exp)

/-- Zero (Python's literal `0` starting the accumulations). -/
def Dec.zero : Dec := ⟨0, 0⟩

/-- Exact addition of decimals (Python `+` on these floats). -/
def Dec.add (a b : Dec) : Dec :=
  ⟨a.num * (10 : Int) ^ b.exp + b.num * (10 : Int) ^ a.exp, a.exp + b.exp⟩

/-- Exact subtraction of decimals (Python `-` on these floats). -/
def Dec.sub (a b : Dec) : Dec :=
  ⟨a.num * (10 : Int) ^ b.exp - b.num * (10 : Int) ^ a.exp, a.exp + b.exp⟩

/-- Python `d > 0` on these floats. -/
def Dec.isPos (d : Dec) : Bool := 0 < d.num

/-- Python `d == 0` on these floats. -/
def Dec.isZero (d : Dec) : Bool := d.num == 0

theorem Dec.val_add (a b : Dec) : (Dec.add a b).val = a.val + b.val := by
  unfold Dec.val Dec.add
  have h10 : ((10 : ℚ) ^ a.exp) ≠ 0 := by positivity
  have h10' : ((10 : ℚ) ^ b.exp) ≠ 0 := by positivity
  push_cast
  rw [pow_add]
  field_simp

theorem Dec.val_sub (a b : Dec) : (Dec.sub a b).val = a.val - b.val := by
  unfold Dec.val Dec.sub
  have h10 : ((10 : ℚ) ^ a.exp) ≠ 0 := by positivity
  have h10' : ((10 : ℚ) ^ b.exp) ≠ 0 := by positivity
  push_cast
  rw [pow_add]
  field_simp
  ring

theorem Dec.val_zero : Dec.zero.val = 0 := by
  simp [Dec.val, Dec.zero]

theorem Dec.val_nonneg_of_num (d : Dec) (h : 0 ≤ d.num) : 0 ≤ d.val := by
  unfold Dec.val
  positivity

theorem Dec.num_add_nonneg (a b : Dec) (ha : 0 ≤ a.num) (hb : 0 ≤ b.num) :
    0 ≤ (Dec.add a b).num := by
  unfold Dec.add
  have p1 : (0 : Int) ≤ 10 ^ b.exp := by positivity
  have p2 : (0 : Int) ≤ 10 ^ a.exp := by positivity
  simp only
  exact add_nonneg (mul_nonneg ha p1) (mul_nonneg hb p2)

/-! ## JSON values (the objects produced by `json.loads`) -/

mutual
/-- JSON value as produced by Python's `json.loads` on the replies this
code parses. -/
inductive JVal where
  | jnull
  | jbool (b : Bool)
  | jnum (d : Dec)
  | jstr (s : String)
  | jarr (l : JArr)
  | jobj (m : JObj)
deriving DecidableEq
/-- JSON array (first-order list, so equality and evaluation stay
kernel-computable). -/
inductive JArr where
  | anil
  | acons (hd : JVal) (tl : JArr)
deriving DecidableEq
/-- JSON object: ordered key/value members, later duplicate keys
overwriting earlier ones at parse time, as in Python dicts. -/
inductive JObj where
  | onil
  | ocons (k : String) (v : JVal) (tl : JObj)
deriving DecidableEq
end

/-- Python `d.get(k)` on a dict: value of the first (unique) matching key,
`None`-as-absence otherwise. -/
def dget (d : JObj) (k : String) : Option JVal :=
  match d with
  | .onil => none
  | .ocons k' v tl => if k' = k then some v else dget tl k

/-- Python `d[k] = v` on a dict: overwrite in place if present, append
otherwise. -/
def dset (d : JObj) (k : String) (v : JVal) : JObj :=
  match d with
  | .onil => .ocons k v .onil
  | .ocons k' v' tl => if k' = k then .ocons k' v tl else .ocons k' v' (dset tl k v)

/-- Python truthiness of a JSON value (`not value` is its negation):
empty string, zero, empty array, empty object, `None` and `False` are
falsy. -/
def falsy : JVal → Bool
  | .jnull => true
  | .jbool b => !b
  | .jnum d => d.isZero
  | .jstr s => s.isEmpty
  | .jarr .anil => true
  | .jarr _ => false
  | .jobj .onil => true
  | .jobj _ => false

/-- The test `not extracted_data.get(f) or extracted_data.get(f) == "N/A"`
used by `validate_extracted_data` for its string fields. -/
def missingStr (o : Option JVal) : Bool :=
  match o with
  | none => true
  | some v => falsy v || v == .jstr "N/A"

/-- The test `not extracted_data.get(f) or extracted_data.get(f) == 0`
used by `validate_extracted_data` for its numeric fields (`0 == False`
and `0 == 0.0` in Python, so the numeric comparison is value-level). -/
def missingNum (o : Option JVal) : Bool :=
  match o with
  | none => true
  | some v =>
    falsy v ||
      (match v with
       | .jnum d => d.isZero
       | .jbool b => !b
       | _ => false)

/-! ## Greedy backtracking matcher for the regexes of `app2.py`

Every regex in the modelled code is a concatenation of: literal
characters, one-character classes, greedy `*` / `+` / `?` over a class,
and at most one capture group sitting at the end of the pattern.  `+` is
expanded as one mandatory character followed by `*`.  The matcher below
implements exactly Python's leftmost, greedy, backtracking semantics for
that fragment. -/

/-- One matcher item: a single character from a class, a greedy star over
a class, or a greedy optional character from a class. -/
inductive SItem where
  | one (p : Char → Bool)
  | star (p : Char → Bool)
  | optc (p : Char → Bool)

/-- Greedy backtracking run of an item list against a character list, in
continuation style: `k` receives the unconsumed suffix and may reject,
causing backtracking.  Structural on the fuel; `its.length + cs.length + 1`
fuel always suffices. -/
def mseq : Nat → List SItem → List Char → (List Char → Option β) → Option β
  | 0, _, _, _ => none
  | _ + 1, [], cs, k => k cs
  | f + 1, .one p :: its, cs, k =>
    match cs with
    | [] => none
    | c :: cs' => if p c then mseq f its cs' k else none
  | f + 1, .optc p :: its, cs, k =>
    match cs with
    | [] => mseq f its [] k
    | c :: cs' =>
      if p c then
        match mseq f its cs' k with
        | some r => some r
        | none => mseq f its cs k
      else mseq f its cs k
  | f + 1, .star p :: its, cs, k =>
    match cs with
    | [] => mseq f its [] k
    | c :: cs' =>
      if p c then
        match mseq f (.star p :: its) cs' k with
        | some r => some r
        | none => mseq f its cs k
      else mseq f its cs k

/-- Compiled pattern: the part before the capture group and the items of
the capture group (empty when the pattern has no group; every pattern in
the modelled code has its group, if any, at the very end). -/
structure Pat where
  pre : List SItem
  grp : List SItem

/-- Result of a successful match: the whole match (`group(0)`), the
capture (`group(1)`, when the pattern has a group) and the suffix after
the match. -/
structure MRes where
  whole : List Char
  gcap : Option (List Char)
  rest : List Char
deriving DecidableEq

/-- Fuel that always suffices for `mseq` on this pattern and subject. -/
def mfuel (its : List SItem) (cs : List Char) : Nat := its.length + cs.length + 1

/-- Anchored match of a pattern at the start of `cs` (Python
`re.match`-at-a-position), with joint backtracking across the group
boundary. -/
def matchAt (pat : Pat) (cs : List Char) : Option MRes :=
  mseq (mfuel pat.pre cs) pat.pre cs (fun r1 =>
    mseq (mfuel pat.grp r1) pat.grp r1 (fun r2 =>
      some { whole := cs.take (cs.length - r2.length)
             gcap := if pat.grp.isEmpty then none else some (r1.take (r1.length - r2.length))
             rest := r2 }))

/-- Python `re.search`: leftmost successful anchored match. -/
def searchL (pat : Pat) : List Char → Option MRes
  | [] => matchAt pat []
  | cs@(_ :: cs') =>
    match matchAt pat cs with
    | some m => some m
    | none => searchL pat cs'

/-- Python `re.search` on a string. -/
def research (pat : Pat) (s : String) : Option MRes := searchL pat s.toList

/-- Worker for `re.findall`: repeated leftmost search, resuming after each
match (advancing one character after an empty match, which no modelled
pattern can produce). -/
def findallAux (pat : Pat) : Nat → List Char → List (List Char)
  | 0, _ => []
  | f + 1, cs =>
    match searchL pat cs with
    | none => []
    | some m =>
      (match m.gcap with | some g => g | none => m.whole) ::
        findallAux pat f (if m.whole.isEmpty then m.rest.drop 1 else m.rest)

/-- Python `re.findall` (returning `group(1)` for the one-group patterns
it is used with here). -/
def findall (pat : Pat) (s : String) : List (List Char) :=
  findallAux pat (s.toList.length + 1) s.toList

/-! ## The concrete patterns of `app2.py` -/

/-- Case-insensitive literal character item (a literal under
`re.IGNORECASE`). -/
def li (a : Char) : SItem := .one (fun c => lowerC c == a)

/-- Case-insensitive literal string, one item per character. -/
def lits (s : String) : List SItem := s.toList.map li

/-- Class `[A-Z0-9\-]` under `re.IGNORECASE` (so lowercase included). -/
def clsInvTok (c : Char) : Bool := asciiAlpha c || asciiDigit c || c == '-'

/-- Class `[₹\s]`. -/
def clsRupeeWs (c : Char) : Bool := c == '₹' || pws c

/-- Class `[0-9,]`. -/
def clsDigComma (c : Char) : Bool := asciiDigit c || c == ','

/-- Class `[0-9.%]`. -/
def clsDigDotPct (c : Char) : Bool := asciiDigit c || c == '.' || c == '%'

/-- Class `[A-Za-z\s]`. -/
def clsAlphaWs (c : Char) : Bool := asciiAlpha c || pws c

/-- Items for `\s*:?\s*`, the label/value glue in most patterns. -/
def glueColon : List SItem := [.star pws, .optc (· == ':'), .star pws]

/-- Items for the amount capture `([0-9,]+\.?[0-9]*)`. -/
def amountGrp : List SItem :=
  [.one clsDigComma, .star clsDigComma, .optc (· == '.'), .star asciiDigit]

/-- Items for the token capture `([A-Z0-9\-]+)` under `re.IGNORECASE`. -/
def invTokGrp : List SItem := [.one clsInvTok, .star clsInvTok]

/-- The five `invoice_patterns` of `validate_extracted_data`, in order. -/
def invoice_patterns : List Pat :=
  [ ⟨lits "invoice no" ++ [.optc (· == '.')] ++ glueColon, invTokGrp⟩,
    ⟨lits "invoice number" ++ glueColon, invTokGrp⟩,
    ⟨lits "bill no" ++ [.optc (· == '.')] ++ glueColon, invTokGrp⟩,
    ⟨lits "inv-" ++ [.star pws], invTokGrp⟩,
    ⟨lits "inv" ++ [.optc (· == '.'), .star pws] ++ lits "no" ++ [.optc (· == '.')] ++ glueColon,
      invTokGrp⟩ ]

/-- The GSTIN structural regex
`[0-9]{2}[A-Z]{5}[0-9]{4}[A-Z]{1}[1-9A-Z]{1}[Z]{1}[0-9A-Z]{1}`
(compiled without `re.IGNORECASE`), as the list of its 15 one-character
classes. -/
def gstinClasses : List (Char → Bool) :=
  List.replicate 2 asciiDigit ++ List.replicate 5 asciiUpper ++
    List.replicate 4 asciiDigit ++
    [asciiUpper, fun c => ('1' ≤ c && c ≤ '9') || asciiUpper c, (· == 'Z'),
     fun c => asciiDigit c || asciiUpper c]

/-- The GSTIN pattern (no capture group; `group(0)` is used). -/
def gstin_pattern : Pat := ⟨gstinClasses.map .one, []⟩

/-- The four `total_patterns` for the grand total, in order. -/
def total_patterns : List Pat :=
  [ ⟨lits "grand total" ++ glueColon ++ [.star clsRupeeWs], amountGrp⟩,
    ⟨lits "total amount" ++ glueColon ++ [.star clsRupeeWs], amountGrp⟩,
    ⟨lits "amount payable" ++ glueColon ++ [.star clsRupeeWs], amountGrp⟩,
    ⟨lits "net amount" ++ glueColon ++ [.star clsRupeeWs], amountGrp⟩ ]

/-- Items for `\s*@?\s*[0-9.%]*` (the optional rate annotation of the
CGST/SGST/IGST patterns). -/
def rateAnn : List SItem := [.star pws, .optc (· == '@'), .star pws, .star clsDigDotPct]

/-- The three explicit `total_gst_patterns`, in order. -/
def total_gst_patterns : List Pat :=
  [ ⟨lits "total gst" ++ glueColon ++ [.star clsRupeeWs], amountGrp⟩,
    ⟨lits "total tax" ++ glueColon ++ [.star clsRupeeWs], amountGrp⟩,
    ⟨lits "gst total" ++ glueColon ++ [.star clsRupeeWs], amountGrp⟩ ]

/-- `CGST\s*@?\s*[0-9.%]*\s*:?\s*[₹\s]*([0-9,]+\.?[0-9]*)`. -/
def cgst_pattern : Pat :=
  ⟨lits "cgst" ++ rateAnn ++ glueColon ++ [.star clsRupeeWs], amountGrp⟩

/-- `SGST\s*@?\s*[0-9.%]*\s*:?\s*[₹\s]*([0-9,]+\.?[0-9]*)`. -/
def sgst_pattern : Pat :=
  ⟨lits "sgst" ++ rateAnn ++ glueColon ++ [.star clsRupeeWs], amountGrp⟩

/-- `IGST\s*@?\s*[0-9.%]*\s*:?\s*[₹\s]*([0-9,]+\.?[0-9]*)`. -/
def igst_pattern : Pat :=
  ⟨lits "igst" ++ rateAnn ++ glueColon ++ [.star clsRupeeWs], amountGrp⟩

/-- Items for the date capture `(\d{2}-\d{2}-\d{4})` with separator `sep`. -/
def dateGrp (sep : Char) : List SItem :=
  [.one asciiDigit, .one asciiDigit, .one (· == sep), .one asciiDigit, .one asciiDigit,
   .one (· == sep), .one asciiDigit, .one asciiDigit, .one asciiDigit, .one asciiDigit]

/-- The four `date_patterns` of `validate_extracted_data`, in order. -/
def date_patterns : List Pat :=
  [ ⟨lits "date" ++ glueColon, dateGrp '-'⟩,
    ⟨lits "date" ++ glueColon, dateGrp '/'⟩,
    ⟨lits "invoice date" ++ glueColon, dateGrp '-'⟩,
    ⟨lits "bill date" ++ glueColon, dateGrp '-'⟩ ]

/-- The three `place_patterns` of `validate_extracted_data`, in order. -/
def place_patterns : List Pat :=
  [ ⟨lits "place of supply" ++ glueColon, [.one clsAlphaWs, .star clsAlphaWs]⟩,
    ⟨lits "delivery at" ++ glueColon, [.one clsAlphaWs, .star clsAlphaWs]⟩,
    ⟨lits "city" ++ glueColon, [.one clsAlphaWs, .star clsAlphaWs]⟩ ]

/-- The fixed `states` list of `validate_extracted_data`, in order. -/
def statesList : List String :=
  ["Maharashtra", "Karnataka", "Tamil Nadu", "Delhi", "Uttar Pradesh",
   "Gujarat", "Rajasthan", "Punjab", "Haryana", "Kerala", "West Bengal",
   "Andhra Pradesh", "Telangana", "Madhya Pradesh", "Bihar", "Odisha"]

/-! ## Python `float()` on the captured amounts

Every string fed to `float()` by the modelled code is a capture of
`([0-9,]+\.?[0-9]*)` with commas removed, i.e. digits with at most one
dot.  `pyFloat?` models `float()` on exactly that space: an unsigned
decimal literal with at least one digit converts, anything else raises
`ValueError` (modelled as `none`, e.g. for the comma-only capture `","`
whose comma-stripped form is empty). -/

/-- Natural value of a digit string. -/
def natVal (cs : List Char) : Nat :=
  cs.foldl (fun acc c => acc * 10 + (c.toNat - 48)) 0

/-- Python `float(s)` on the sign-free captures of this code. -/
def pyFloat? (cs : List Char) : Option Dec :=
  let intp := cs.takeWhile (· ≠ '.')
  let rest := cs.drop intp.length
  match rest with
  | [] => if cs ≠ [] && cs.all asciiDigit then some ⟨(natVal cs : Nat), 0⟩ else none
  | _ :: frac =>
    if intp.all asciiDigit && frac.all asciiDigit && (intp ≠ [] || frac ≠ []) then
      some ⟨((natVal intp * 10 ^ frac.length + natVal frac : Nat) : Int), frac.length⟩
    else none

theorem pyFloat?_num_nonneg (cs : List Char) (d : Dec) (h : pyFloat? cs = some d) :
    0 ≤ d.num := by
  unfold pyFloat? at h
  dsimp only at h
  split at h
  · split at h
    · cases h; exact Int.natCast_nonneg _
    · cases h
  · split at h
    · cases h; exact Int.natCast_nonneg _
    · cases h

/-! ## `calculate_total_gst_from_text` (`app2.py` lines 1455-1501)

The single `try` block accumulates into `total_gst`; a `ValueError` from
`float()` jumps to the `except` handler, which returns the partial sum
accumulated so far.  `Except Dec Dec` threads exactly that: `.ok` is
normal completion, `.error` carries the partial sum at the raising
point. -/

/-- One `for match in matches: total_gst += float(match.replace(',',''))`
loop, starting from the running total `acc`. -/
def addMatches (acc : Dec) : List (List Char) → Except Dec Dec
  | [] => .ok acc
  | m :: ms =>
    match pyFloat? (pyReplace m [','] []) with
    | some q => addMatches (Dec.add acc q) ms
    | none => .error acc

/-- The nested `for pattern in ...: for match in findall(...)` loops of
method 1, over a pattern list. -/
def addPatterns (acc : Dec) (ps : List Pat) (text : String) : Except Dec Dec :=
  match ps with
  | [] => .ok acc
  | p :: ps' =>
    match addMatches acc (findall p text) with
    | .ok acc' => addPatterns acc' ps' text
    | .error e => .error e

/-- `calculate_total_gst_from_text`: explicit Total-GST labels first, then
CGST+SGST, then IGST; the first stage with a positive running total is
returned, and an internal `ValueError` returns the partial total. -/
def calculate_total_gst_from_text (text : String) : Dec :=
  match addPatterns Dec.zero total_gst_patterns text with
  | .error t => t
  | .ok t1 =>
    if t1.isPos then t1
    else
      match addMatches t1 (findall cgst_pattern text) with
      | .error t => t
      | .ok t2a =>
        match addMatches t2a (findall sgst_pattern text) with
        | .error t => t
        | .ok t2 =>
          if t2.isPos then t2
          else
            match addMatches t2 (findall igst_pattern text) with
            | .error t => t
            | .ok t3 => t3

/-! ## The per-field fallbacks of `validate_extracted_data`
(`app2.py` lines 1357-1453) -/

/-- First-match-wins loop over a pattern list: on a `re.search` hit apply
`f` to the match; a `none` from `f` moves to the next pattern (this is the
`except ValueError: continue` of the grand-total loop; for the other
loops `f` is total, so it is plain break-on-first-match). -/
def firstPatResult (text : String) (f : MRes → Option α) : List Pat → Option α
  | [] => none
  | p :: ps =>
    match research p text with
    | some m =>
      match f m with
      | some r => some r
      | none => firstPatResult text f ps
    | none => firstPatResult text f ps

/-- Invoice-number fallback: first `invoice_patterns` match,
`group(1).strip()`. -/
def invoiceFallback (text : String) : Option (List Char) :=
  firstPatResult text (fun m => m.gcap.map pyStrip) invoice_patterns

/-- GSTIN fallback: first structural match anywhere, `group(0)`. -/
def gstinFallback (text : String) : Option (List Char) :=
  (research gstin_pattern text).map (·.whole)

/-- Grand-total fallback: first `total_patterns` match whose comma-freed
capture converts with `float()`. -/
def grandTotalFallback (text : String) : Option Dec :=
  firstPatResult text (fun m => m.gcap.bind (fun g => pyFloat? (pyReplace g [','] [])))
    total_patterns

/-- Date fallback: first `date_patterns` match, `group(1)`. -/
def dateFallback (text : String) : Option (List Char) :=
  firstPatResult text (·.gcap) date_patterns

/-- Place fallback: first `place_patterns` match, `group(1).strip()`. -/
def placeFallback (text : String) : Option (List Char) :=
  firstPatResult text (fun m => m.gcap.map pyStrip) place_patterns

/-- State fallback: first state of the fixed list whose lowercase form is
a substring of the lowercased transcript. -/
def stateFallback (text : String) : Option String :=
  statesList.find? (fun st => pyInStr (lowerL st.toList) (lowerL text.toList))

/-- One `if <field is missing>: <try fallback>` block of
`validate_extracted_data`: when `cond` holds on the field's current value
and the fallback `fb` produced a value, overwrite the field; otherwise
leave the dict untouched. -/
def condStep (key : String) (cond : Option JVal → Bool) (fb : Option JVal) (d : JObj) : JObj :=
  if cond (dget d key) then
    match fb with
    | some v => dset d key v
    | none => d
  else d

/-- `validate_extracted_data(extracted_data, original_text, filename)`:
the eight fallback blocks in source order (the `filename` parameter is
accepted and unused, as in the source). -/
def validate_extracted_data (extracted_data : JObj) (original_text : String)
    (filename : String) : JObj :=
  let d := extracted_data
  let d := condStep "invoice_no" missingStr
    ((invoiceFallback original_text).map (fun g => .jstr (String.mk g))) d
  let d := condStep "gstin_no" missingStr
    ((gstinFallback original_text).map (fun g => .jstr (String.mk g))) d
  let d := condStep "grand_total" missingNum
    ((grandTotalFallback original_text).map .jnum) d
  let d := condStep "total_gst" missingNum
    (let total_gst := calculate_total_gst_from_text original_text
     if total_gst.isPos then some (.jnum total_gst) else none) d
  let d := condStep "date" missingStr
    ((dateFallback original_text).map (fun g => .jstr (String.mk g))) d
  let d := condStep "place" missingStr
    ((placeFallback original_text).map (fun g => .jstr (String.mk g))) d
  let d := condStep "state" missingStr ((stateFallback original_text).map .jstr) d
  let d := condStep "items" Option.isNone (some (.jarr .anil)) d
  d

/-! ## `calculate_summary_statistics` (`app2.py` lines 94-106) -/

/-- Summary record returned by `calculate_summary_statistics`. -/
structure BatchSummary where
  total_invoices : Nat
  total_grand_total : Dec
  total_gst_amount : Dec
  total_taxable_amount : Dec
deriving DecidableEq, Repr

/-- Python `invoice.get(k, 0)` on a record whose field, when present, is
numeric (strings in a summed field would raise `TypeError` in the
source's `sum`, which is outside the modelled space). -/
def getNumD (inv : JObj) (k : String) : Dec :=
  match dget inv k with
  | some (.jnum d) => d
  | _ => Dec.zero

/-- Python `sum(...)` over decimals, starting from the integer `0`. -/
def sumDec (l : List Dec) : Dec := l.foldl Dec.add Dec.zero

/-- `calculate_summary_statistics(invoices)`. -/
def calculate_summary_statistics (invoices : List JObj) : BatchSummary :=
  let total_invoices := invoices.length
  let total_grand_total := sumDec (invoices.map (fun i => getNumD i "grand_total"))
  let total_gst_amount := sumDec (invoices.map (fun i => getNumD i "total_gst"))
  let total_taxable_amount := Dec.sub total_grand_total total_gst_amount
  ⟨total_invoices, total_grand_total, total_gst_amount, total_taxable_amount⟩

/-! ## `json.loads` on the model replies (`parse_gemini_response`,
`app2.py` lines 1335-1355)

The parser below models Python's `json.loads` on the reply space this
code handles: objects, arrays, strings with the simple one-character
escapes, numbers without exponents, and the three literals.  `\uXXXX`
escapes and exponent notation do not occur in the replies reasoned about
here and are modelled as parse failures. -/

/-- JSON whitespace accepted between tokens by `json.loads`. -/
def jws (c : Char) : Bool := [' ', '\t', '\n', '\r'].contains c

/-- Skip JSON whitespace. -/
def skipWs (cs : List Char) : List Char := cs.dropWhile jws

/-- Simple JSON string escapes. -/
def escChar (e : Char) : Option Char :=
  if e == 'n' then some '\n'
  else if e == 't' then some '\t'
  else if e == 'r' then some '\r'
  else if e == 'b' then some '\x08'
  else if e == 'f' then some '\x0c'
  else if e == '"' || e == '\\' || e == '/' then some e
  else none

/-- Body of a JSON string after the opening quote: content and rest. -/
def pStrBody : Nat → List Char → Option (List Char × List Char)
  | 0, _ => none
  | f + 1, cs =>
    match cs with
    | [] => none
    | '"' :: rest => some ([], rest)
    | '\\' :: e :: rest =>
      match escChar e with
      | some c => (pStrBody f rest).map (fun p => (c :: p.1, p.2))
      | none => none
    | c :: rest => (pStrBody f rest).map (fun p => (c :: p.1, p.2))

/-- JSON number (no exponent part): optional minus, integer part without
leading zeros, optional fraction. -/
def pNum (cs : List Char) : Option (Dec × List Char) :=
  let neg := cs.head? == some '-'
  let cs1 := if neg then cs.drop 1 else cs
  let intd := cs1.takeWhile asciiDigit
  let cs2 := cs1.drop intd.length
  if intd.isEmpty then none
  else if intd.length > 1 && intd.head? == some '0' then none
  else
    match cs2 with
    | '.' :: cs3 =>
      let frac := cs3.takeWhile asciiDigit
      if frac.isEmpty then none
      else
        let mag : Int := ((natVal intd * 10 ^ frac.length + natVal frac : Nat) : Int)
        some (⟨if neg then -mag else mag, frac.length⟩, cs3.drop frac.length)
    | _ => some (⟨if neg then -((natVal intd : Nat) : Int) else ((natVal intd : Nat) : Int), 0⟩, cs2)

/-- List-to-`JArr` conversion. -/
def toJArr : List JVal → JArr
  | [] => .anil
  | v :: t => .acons v (toJArr t)

/-- Array tail loop: after the first element, `, value` repeated until
`]`. -/
def pArrTail (pv : List Char → Option (JVal × List Char)) :
    Nat → List Char → List JVal → Option (List JVal × List Char)
  | 0, _, _ => none
  | f + 1, cs, acc =>
    match skipWs cs with
    | ',' :: cs2 =>
      match pv cs2 with
      | some (v, cs3) => pArrTail pv f cs3 (acc ++ [v])
      | none => none
    | ']' :: cs2 => some (acc, cs2)
    | _ => none

/-- One `"key" : value` member. -/
def pMember (pv : List Char → Option (JVal × List Char)) (cs : List Char) :
    Option (String × JVal × List Char) :=
  match skipWs cs with
  | '"' :: r =>
    match pStrBody (r.length + 1) r with
    | some (k, r2) =>
      match skipWs r2 with
      | ':' :: r3 =>
        match pv r3 with
        | some (v, r4) => some (String.mk k, v, r4)
        | none => none
      | _ => none
    | none => none
  | _ => none

/-- Object tail loop: after the first member, `, "key": value` repeated
until the closing brace; duplicate keys overwrite (Python dict). -/
def pObjTail (pv : List Char → Option (JVal × List Char)) :
    Nat → List Char → JObj → Option (JObj × List Char)
  | 0, _, _ => none
  | f + 1, cs, acc =>
    match skipWs cs with
    | ',' :: cs2 =>
      match pMember pv cs2 with
      | some (k, v, cs3) => pObjTail pv f cs3 (dset acc k v)
      | none => none
    | '\x7d' :: cs2 => some (acc, cs2)
    | _ => none

/-- JSON value parser (fuel-structural; `length + 1` fuel always
suffices since every recursion step first consumes a character). -/
def pVal : Nat → List Char → Option (JVal × List Char)
  | 0, _ => none
  | f + 1, cs0 =>
    let cs := skipWs cs0
    match cs with
    | '"' :: rest =>
      match pStrBody (rest.length + 1) rest with
      | some (s, r) => some (.jstr (String.mk s), r)
      | none => none
    | '[' :: rest =>
      match skipWs rest with
      | ']' :: r2 => some (.jarr .anil, r2)
      | _ =>
        match pVal f rest with
        | some (v, r2) =>
          match pArrTail (fun x => pVal f x) f r2 [v] with
          | some (l, r3) => some (.jarr (toJArr l), r3)
          | none => none
        | none => none
    | '\x7b' :: rest =>
      match skipWs rest with
      | '\x7d' :: r2 => some (.jobj .onil, r2)
      | _ =>
        match pMember (fun x => pVal f x) rest with
        | some (k, v, r2) =>
          match pObjTail (fun x => pVal f x) f r2 (dset .onil k v) with
          | some (o, r3) => some (.jobj o, r3)
          | none => none
        | none => none
    | _ =>
      if "true".toList.isPrefixOf cs then some (.jbool true, cs.drop 4)
      else if "false".toList.isPrefixOf cs then some (.jbool false, cs.drop 5)
      else if "null".toList.isPrefixOf cs then some (.jnull, cs.drop 4)
      else
        match cs with
        | c :: _ => if asciiDigit c || c == '-' then
            match pNum cs with
            | some (d, r) => some (.jnum d, r)
            | none => none
          else none
        | [] => none

/-- Python `json.loads(s)`: one value, surrounding whitespace allowed,
nothing trailing. -/
def jsonLoads? (s : String) : Option JVal :=
  match pVal (s.toList.length + 1) s.toList with
  | some (v, rest) => if (skipWs rest).isEmpty then some v else none
  | none => none

/-- Python `s.find(c)`: index of first occurrence or `-1`. -/
def pyFindIdx (cs : List Char) (c : Char) : Int :=
  match cs.findIdx? (· == c) with
  | some i => (i : Int)
  | none => -1

/-- Python `s.rfind(c)`: index of last occurrence or `-1`. -/
def pyRFindIdx (cs : List Char) (c : Char) : Int :=
  match cs.reverse.findIdx? (· == c) with
  | some i => ((cs.length - 1 - i : Nat) : Int)
  | none => -1

/-- The bracket slice `response_text[start_idx:end_idx]` with
`start_idx = find('{')` and `end_idx = rfind('}') + 1`. -/
def geminiSlice (cs : List Char) : List Char :=
  (cs.drop (pyFindIdx cs '\x7b').toNat).take
    ((pyRFindIdx cs '\x7d' + 1).toNat - (pyFindIdx cs '\x7b').toNat)

/-- The fence-stripped reply:
`response_text.replace('```json', '').replace('```', '').strip()`. -/
def geminiCleaned (cs : List Char) : List Char :=
  pyStrip (pyReplace (pyReplace cs "```json".toList []) "```".toList [])

/-- `parse_gemini_response(response_text)`: slice between the first `{`
and the last `}` and decode it; with no `{` decode the whole reply; on
any decode failure strip code fences (` ```json ` then ` ``` `), strip
whitespace, and retry; `None` when everything fails.  (Note the source
computes `end_idx = rfind('}') + 1` and compares that against `-1`, so
the second branch is reached only when no `{` exists.) -/
def parse_gemini_response (response_text : String) : Option JVal :=
  let cs := response_text.toList
  let start_idx : Int := pyFindIdx cs '\x7b'
  let end_idx : Int := pyRFindIdx cs '\x7d' + 1
  let attempt1 : Option JVal :=
    if start_idx ≠ -1 ∧ end_idx ≠ -1 then
      jsonLoads? (String.mk (geminiSlice cs))
    else
      jsonLoads? response_text
  match attempt1 with
  | some v => some v
  | none => jsonLoads? (String.mk (geminiCleaned cs))

/-! ## `format_date_to_ymd` (`app2.py` lines 1503-1556)

`datetime.strptime` is modelled for the directives appearing in
`formats_to_try`: `%d`, `%m`, `%Y`, `%y`, `%b`, `%B`, literal separators,
and literal whitespace (which CPython's `_strptime` turns into `\s+`).
The two-digit alternatives of `%d`/`%m` are tried before the one-digit
alternative, matching the alternation order of `_strptime`'s regexes, and
the whole string must be consumed.  A parsed date must satisfy
`datetime`'s range checks (day within the month, year at least 1). -/

/-- One `strptime` format token. -/
inductive FmtTok where
  | D | M | Y4 | Y2 | B3 | BF
  | ws
  | lit (c : Char)

/-- Compile a CPython format string into tokens. -/
def parseFmt : List Char → List FmtTok
  | [] => []
  | '%' :: c :: rest =>
    (match c with
     | 'd' => FmtTok.D
     | 'm' => FmtTok.M
     | 'Y' => FmtTok.Y4
     | 'y' => FmtTok.Y2
     | 'b' => FmtTok.B3
     | 'B' => FmtTok.BF
     | _ => FmtTok.lit c) :: parseFmt rest
  | c :: rest => (if pws c then FmtTok.ws else FmtTok.lit c) :: parseFmt rest

/-- Partially-filled date during a `strptime` run (defaults 1900-01-01). -/
structure DAcc where
  y : Nat
  m : Nat
  d : Nat
deriving DecidableEq, Repr

/-- Digit value of an ASCII digit character. -/
def dv (c : Char) : Nat := c.toNat - 48

/-- The English month abbreviations matched by `%b`, with month numbers. -/
def monthAbbrevs : List (String × Nat) :=
  [("jan", 1), ("feb", 2), ("mar", 3), ("apr", 4), ("may", 5), ("jun", 6),
   ("jul", 7), ("aug", 8), ("sep", 9), ("oct", 10), ("nov", 11), ("dec", 12)]

/-- The English month names matched by `%B`, longest first as in
`_strptime`'s alternation. -/
def monthFulls : List (String × Nat) :=
  [("september", 9), ("february", 2), ("november", 11), ("december", 12),
   ("january", 1), ("october", 10), ("august", 8), ("march", 3), ("april", 4),
   ("june", 6), ("july", 7), ("may", 5)]

/-- Case-insensitive match of one name of the list at the front of `cs`,
returning its value and the rest. -/
def matchName (names : List (String × Nat)) (cs : List Char) : Option (Nat × List Char) :=
  names.findSome? (fun nv =>
    if lowerL (cs.take nv.1.toList.length) == nv.1.toList && nv.1.toList.length ≤ cs.length then
      some (nv.2, cs.drop nv.1.toList.length)
    else none)

/-- Run a token list against the subject with `_strptime`'s backtracking
(two-digit day/month preferred over one-digit), requiring full
consumption. -/
def runToks : List FmtTok → List Char → DAcc → Option DAcc
  | [], cs, acc => if cs.isEmpty then some acc else none
  | .lit c :: ts, cs, acc =>
    match cs with
    | x :: cs' => if x == c then runToks ts cs' acc else none
    | [] => none
  | .ws :: ts, cs, acc =>
    let n := (cs.takeWhile pws).length
    if n == 0 then none else runToks ts (cs.drop n) acc
  | .D :: ts, cs, acc =>
    match cs with
    | a :: b :: cs2 =>
      if asciiDigit a && asciiDigit b && 1 ≤ dv a * 10 + dv b && dv a * 10 + dv b ≤ 31 then
        match runToks ts cs2 { acc with d := dv a * 10 + dv b } with
        | some r => some r
        | none =>
          if '1' ≤ a && a ≤ '9' then runToks ts (b :: cs2) { acc with d := dv a } else none
      else if '1' ≤ a && a ≤ '9' then runToks ts (b :: cs2) { acc with d := dv a }
      else none
    | [a] => if '1' ≤ a && a ≤ '9' then runToks ts [] { acc with d := dv a } else none
    | [] => none
  | .M :: ts, cs, acc =>
    match cs with
    | a :: b :: cs2 =>
      if asciiDigit a && asciiDigit b && 1 ≤ dv a * 10 + dv b && dv a * 10 + dv b ≤ 12 then
        match runToks ts cs2 { acc with m := dv a * 10 + dv b } with
        | some r => some r
        | none =>
          if '1' ≤ a && a ≤ '9' then runToks ts (b :: cs2) { acc with m := dv a } else none
      else if '1' ≤ a && a ≤ '9' then runToks ts (b :: cs2) { acc with m := dv a }
      else none
    | [a] => if '1' ≤ a && a ≤ '9' then runToks ts [] { acc with m := dv a } else none
    | [] => none
  | .Y4 :: ts, cs, acc =>
    match cs with
    | a :: b :: c :: d :: cs2 =>
      if asciiDigit a && asciiDigit b && asciiDigit c && asciiDigit d then
        runToks ts cs2 { acc with y := dv a * 1000 + dv b * 100 + dv c * 10 + dv d }
      else none
    | _ => none
  | .Y2 :: ts, cs, acc =>
    match cs with
    | a :: b :: cs2 =>
      if asciiDigit a && asciiDigit b then
        let v := dv a * 10 + dv b
        runToks ts cs2 { acc with y := if v ≤ 68 then 2000 + v else 1900 + v }
      else none
    | _ => none
  | .B3 :: ts, cs, acc =>
    match matchName monthAbbrevs cs with
    | some (v, cs2) => runToks ts cs2 { acc with m := v }
    | none => none
  | .BF :: ts, cs, acc =>
    match matchName monthFulls cs with
    | some (v, cs2) => runToks ts cs2 { acc with m := v }
    | none => none

/-- Day count of a month, with `datetime`'s leap-year rule. -/
def daysInMonth (y m : Nat) : Nat :=
  if m == 2 then (if y % 4 == 0 && (y % 100 ≠ 0 || y % 400 == 0) then 29 else 28)
  else if m == 4 || m == 6 || m == 9 || m == 11 then 30 else 31

/-- `datetime.strptime(cs, fmt)` restricted to a date result: token run
plus `datetime`'s validity checks; `none` models `ValueError`. -/
def strptimeD (fmt : String) (cs : List Char) : Option DAcc :=
  match runToks (parseFmt fmt.toList) cs ⟨1900, 1, 1⟩ with
  | some acc =>
    if 1 ≤ acc.y && 1 ≤ acc.d && acc.d ≤ daysInMonth acc.y acc.m then some acc else none
  | none => none

/-- The `formats_to_try` list, in source order. -/
def formats_to_try : List String :=
  ["%d-%m-%Y", "%d-%m-%y", "%Y-%m-%d", "%d/%m/%Y", "%d/%m/%y",
   "%d.%m.%Y", "%d.%m.%y", "%Y.%m.%d",
   "%d-%b-%Y", "%d-%B-%Y", "%d %b %Y", "%d %B %Y",
   "%b-%d-%Y", "%B-%d-%Y", "%b %d, %Y", "%B %d, %Y",
   "%d-%b-%y", "%d-%B-%y", "%d %b %y", "%d %B %y"]

/-- The `for fmt in formats_to_try` loop: first format that parses. -/
def tryFormats : List String → List Char → Option DAcc
  | [], _ => none
  | fmt :: rest, cs =>
    match strptimeD fmt cs with
    | some r => some r
    | none => tryFormats rest cs

/-- `date_obj.strftime('%Y.%m.%d')`. -/
def strftimeYMD (r : DAcc) : List Char :=
  natToChars r.y ++ '.' :: (pad2 r.m ++ '.' :: pad2 r.d)

/-- The `month_map` dict in insertion order (the duplicate `'may'` key
keeps its first position). -/
def month_map : List (String × String) :=
  [("jan", "01"), ("feb", "02"), ("mar", "03"), ("apr", "04"), ("may", "05"),
   ("jun", "06"), ("jul", "07"), ("aug", "08"), ("sep", "09"), ("oct", "10"),
   ("nov", "11"), ("dec", "12"),
   ("january", "01"), ("february", "02"), ("march", "03"), ("april", "04"),
   ("june", "06"), ("july", "07"), ("august", "08"), ("september", "09"),
   ("october", "10"), ("november", "11"), ("december", "12")]

/-- The manual month-name scan of `format_date_to_ymd`: first month key
contained in the lowercased string; with at least three split tokens the
result is assembled from tokens 0 and 2; a raising `int()` on a two-digit
year aborts the whole scan (`except: pass`), which like a fruitless scan
leads to returning the cleaned string. -/
def monthScanAux : List (String × String) → List Char → Option (List Char)
  | [], _ => none
  | (mt, mn) :: rest, ds =>
    if pyInStr mt.toList (lowerL ds) then
      let parts := pySplit (pyReplace (pyReplace (pyReplace ds [','] [' ']) ['-'] [' ']) ['/'] [' '])
      if parts.length ≥ 3 then
        let day := zfill2 ((parts.get? 0).getD [])
        let year := (parts.get? 2).getD []
        if year.length == 2 then
          match pyInt? year with
          | some n =>
            some (((if n ≤ 50 then ['2', '0'] else ['1', '9']) ++ year) ++
              '.' :: (mn.toList ++ '.' :: day))
          | none => none
        else some (year ++ '.' :: (mn.toList ++ '.' :: day))
      else monthScanAux rest ds
    else monthScanAux rest ds

/-- The cleaning prologue of `format_date_to_ymd`:
`date_str.strip().replace('/', '-').replace('.', '-')`. -/
def cleanDate (cs : List Char) : List Char :=
  pyReplace (pyReplace (pyStrip cs) ['/'] ['-']) ['.'] ['-']

/-- `format_date_to_ymd(date_str)`: strip and normalize separators, try
the fixed format list, then the manual month scan, else return the
cleaned string. -/
def format_date_to_ymd (date_str : String) : String :=
  let ds := cleanDate date_str.toList
  match tryFormats formats_to_try ds with
  | some r => String.mk (strftimeYMD r)
  | none =>
    match monthScanAux month_map ds with
    | some out => String.mk out
    | none => String.mk ds

/-! ## Dictionary and `condStep` lemmas -/

theorem dget_dset_self : ∀ (d : JObj) (k : String) (v : JVal), dget (dset d k v) k = some v
  | .onil, k, v => by simp [dget, dset]
  | .ocons k' v' tl, k, v => by
    by_cases h : k' = k
    · simp [dget, dset, h]
    · simp [dget, dset, h, dget_dset_self tl k v]

theorem dget_dset_ne : ∀ (d : JObj) (k : String) (v : JVal) (k' : String), k' ≠ k →
    dget (dset d k v) k' = dget d k'
  | .onil, k, v, k', h => by
    have hne : ¬ (k = k') := fun hh => h hh.symm
    simp [dget, dset, hne]
  | .ocons k0 v0 tl, k, v, k', h => by
    by_cases h0 : k0 = k
    · subst h0
      have hne : ¬ (k0 = k') := fun hh => h hh.symm
      simp [dget, dset, hne]
    · simp only [dset, if_neg h0]
      by_cases h1 : k0 = k'
      · simp [dget, h1]
      · simp [dget, h1, dget_dset_ne tl k v k' h]

theorem condStep_get_ne (key : String) (cond : Option JVal → Bool) (fb : Option JVal)
    (d : JObj) (k : String) (h : k ≠ key) :
    dget (condStep key cond fb d) k = dget d k := by
  unfold condStep
  split
  · match fb with
    | some v => exact dget_dset_ne d key v k h
    | none => rfl
  · rfl

theorem condStep_get_self (key : String) (cond : Option JVal → Bool) (fb : Option JVal)
    (d : JObj) :
    dget (condStep key cond fb d) key =
      if cond (dget d key) then Option.or fb (dget d key) else dget d key := by
  unfold condStep
  split <;> rename_i hc
  · match fb with
    | some v => simp [hc, Option.or, dget_dset_self]
    | none => simp [hc, Option.or]
  · simp [hc]

theorem condStep_preserves_isSome (key : String) (cond : Option JVal → Bool)
    (fb : Option JVal) (d : JObj) (k : String) (h : (dget d k).isSome = true) :
    (dget (condStep key cond fb d) k).isSome = true := by
  by_cases hk : k = key
  · subst hk
    rw [condStep_get_self]
    split
    · match fb with
      | some v => simp [Option.or]
      | none => simpa [Option.or] using h
    · exact h
  · rw [condStep_get_ne _ _ _ _ _ hk]
    exact h

/-! ## Per-field behaviour of `validate_extracted_data` -/

theorem validateGet_invoice (ed : JObj) (t fn : String) :
    dget (validate_extracted_data ed t fn) "invoice_no" =
      if missingStr (dget ed "invoice_no") then
        Option.or ((invoiceFallback t).map (fun g => JVal.jstr (String.mk g)))
          (dget ed "invoice_no")
      else dget ed "invoice_no" := by
  simp only [validate_extracted_data]
  rw [condStep_get_ne _ _ _ _ _ (by decide),
      condStep_get_ne _ _ _ _ _ (by decide),
      condStep_get_ne _ _ _ _ _ (by decide),
      condStep_get_ne _ _ _ _ _ (by decide),
      condStep_get_ne _ _ _ _ _ (by decide),
      condStep_get_ne _ _ _ _ _ (by decide),
      condStep_get_ne _ _ _ _ _ (by decide)]
  exact condStep_get_self _ _ _ _

theorem validateGet_gstin (ed : JObj) (t fn : String) :
    dget (validate_extracted_data ed t fn) "gstin_no" =
      if missingStr (dget ed "gstin_no") then
        Option.or ((gstinFallback t).map (fun g => JVal.jstr (String.mk g)))
          (dget ed "gstin_no")
      else dget ed "gstin_no" := by
  simp only [validate_extracted_data]
  rw [condStep_get_ne _ _ _ _ _ (by decide),
      condStep_get_ne _ _ _ _ _ (by decide),
      condStep_get_ne _ _ _ _ _ (by decide),
      condStep_get_ne _ _ _ _ _ (by decide),
      condStep_get_ne _ _ _ _ _ (by decide),
      condStep_get_ne _ _ _ _ _ (by decide),
      condStep_get_self, condStep_get_ne _ _ _ _ _ (by decide)]

theorem validateGet_grand (ed : JObj) (t fn : String) :
    dget (validate_extracted_data ed t fn) "grand_total" =
      if missingNum (dget ed "grand_total") then
        Option.or ((grandTotalFallback t).map JVal.jnum) (dget ed "grand_total")
      else dget ed "grand_total" := by
  simp only [validate_extracted_data]
  rw [condStep_get_ne _ _ _ _ _ (by decide),
      condStep_get_ne _ _ _ _ _ (by decide),
      condStep_get_ne _ _ _ _ _ (by decide),
      condStep_get_ne _ _ _ _ _ (by decide),
      condStep_get_ne _ _ _ _ _ (by decide),
      condStep_get_self,
      condStep_get_ne _ _ _ _ _ (by decide),
      condStep_get_ne _ _ _ _ _ (by decide)]

theorem validateGet_gst (ed : JObj) (t fn : String) :
    dget (validate_extracted_data ed t fn) "total_gst" =
      if missingNum (dget ed "total_gst") then
        Option.or
          (if (calculate_total_gst_from_text t).isPos then
            some (JVal.jnum (calculate_total_gst_from_text t))
          else none)
          (dget ed "total_gst")
      else dget ed "total_gst" := by
  simp only [validate_extracted_data]
  rw [condStep_get_ne _ _ _ _ _ (by decide),
      condStep_get_ne _ _ _ _ _ (by decide),
      condStep_get_ne _ _ _ _ _ (by decide),
      condStep_get_ne _ _ _ _ _ (by decide),
      condStep_get_self,
      condStep_get_ne _ _ _ _ _ (by decide),
      condStep_get_ne _ _ _ _ _ (by decide),
      condStep_get_ne _ _ _ _ _ (by decide)]

theorem validateGet_date (ed : JObj) (t fn : String) :
    dget (validate_extracted_data ed t fn) "date" =
      if missingStr (dget ed "date") then
        Option.or ((dateFallback t).map (fun g => JVal.jstr (String.mk g))) (dget ed "date")
      else dget ed "date" := by
  simp only [validate_extracted_data]
  rw [condStep_get_ne _ _ _ _ _ (by decide),
      condStep_get_ne _ _ _ _ _ (by decide),
      condStep_get_ne _ _ _ _ _ (by decide),
      condStep_get_self,
      condStep_get_ne _ _ _ _ _ (by decide),
      condStep_get_ne _ _ _ _ _ (by decide),
      condStep_get_ne _ _ _ _ _ (by decide),
      condStep_get_ne _ _ _ _ _ (by decide)]

theorem validateGet_place (ed : JObj) (t fn : String) :
    dget (validate_extracted_data ed t fn) "place" =
      if missingStr (dget ed "place") then
        Option.or ((placeFallback t).map (fun g => JVal.jstr (String.mk g))) (dget ed "place")
      else dget ed "place" := by
  simp only [validate_extracted_data]
  rw [condStep_get_ne _ _ _ _ _ (by decide),
      condStep_get_ne _ _ _ _ _ (by decide),
      condStep_get_self,
      condStep_get_ne _ _ _ _ _ (by decide),
      condStep_get_ne _ _ _ _ _ (by decide),
      condStep_get_ne _ _ _ _ _ (by decide),
      condStep_get_ne _ _ _ _ _ (by decide),
      condStep_get_ne _ _ _ _ _ (by decide)]

theorem validateGet_state (ed : JObj) (t fn : String) :
    dget (validate_extracted_data ed t fn) "state" =
      if missingStr (dget ed "state") then
        Option.or ((stateFallback t).map JVal.jstr) (dget ed "state")
      else dget ed "state" := by
  simp only [validate_extracted_data]
  rw [condStep_get_ne _ _ _ _ _ (by decide),
      condStep_get_self,
      condStep_get_ne _ _ _ _ _ (by decide),
      condStep_get_ne _ _ _ _ _ (by decide),
      condStep_get_ne _ _ _ _ _ (by decide),
      condStep_get_ne _ _ _ _ _ (by decide),
      condStep_get_ne _ _ _ _ _ (by decide),
      condStep_get_ne _ _ _ _ _ (by decide)]

theorem validateGet_items (ed : JObj) (t fn : String) :
    dget (validate_extracted_data ed t fn) "items" =
      if (dget ed "items").isNone then some (JVal.jarr .anil) else dget ed "items" := by
  simp only [validate_extracted_data]
  rw [condStep_get_self,
      condStep_get_ne _ _ _ _ _ (by decide),
      condStep_get_ne _ _ _ _ _ (by decide),
      condStep_get_ne _ _ _ _ _ (by decide),
      condStep_get_ne _ _ _ _ _ (by decide),
      condStep_get_ne _ _ _ _ _ (by decide),
      condStep_get_ne _ _ _ _ _ (by decide),
      condStep_get_ne _ _ _ _ _ (by decide)]
  split <;> simp [Option.or]

theorem validateGet_other (ed : JObj) (t fn k : String)
    (h : k ∉ (["invoice_no", "gstin_no", "grand_total", "total_gst",
               "date", "place", "state", "items"] : List String)) :
    dget (validate_extracted_data ed t fn) k = dget ed k := by
  simp only [List.mem_cons, List.not_mem_nil, or_false, not_or] at h
  obtain ⟨h1, h2, h3, h4, h5, h6, h7, h8⟩ := h
  simp only [validate_extracted_data]
  rw [condStep_get_ne _ _ _ _ _ h8,
      condStep_get_ne _ _ _ _ _ h7,
      condStep_get_ne _ _ _ _ _ h6,
      condStep_get_ne _ _ _ _ _ h5,
      condStep_get_ne _ _ _ _ _ h4,
      condStep_get_ne _ _ _ _ _ h3,
      condStep_get_ne _ _ _ _ _ h2,
      condStep_get_ne _ _ _ _ _ h1]

/-! ## Missingness helper lemmas -/

theorem missingStr_jstr_false (s : String) (h1 : s ≠ "") (h2 : s ≠ "N/A") :
    missingStr (some (.jstr s)) = false := by
  simp only [missingStr, falsy, Bool.or_eq_false_iff]
  constructor
  · exact Bool.eq_false_iff.mpr (fun h => h1 ((String.isEmpty_iff _).mp h))
  · simpa using fun hh : JVal.jstr s = JVal.jstr "N/A" => h2 (by injection hh)

theorem missingNum_jnum_false (d : Dec) (h : d.isZero = false) :
    missingNum (some (.jnum d)) = false := by
  simp [missingNum, falsy, h]

/-! ## Claims C1, C2, C9 -/

/-- Claim C1, counterexample: with the model reply `{"invoice_no": "N/A"}`
and a transcript `"zzz"` matched by no fallback pattern, the validated
record still carries the placeholder `"N/A"` in `invoice_no`; it is not
reset to the default `""` as the claim states. -/
theorem C1_counterexample :
    invoiceFallback "zzz" = none ∧
    dget (validate_extracted_data (.ocons "invoice_no" (.jstr "N/A") .onil) "zzz" "f")
        "invoice_no" = some (.jstr "N/A") ∧
    some (JVal.jstr "N/A") ≠ some (JVal.jstr "") :=
  ⟨by decide, by decide, by decide⟩

/-- Claim C1, amended: for every parsed object, transcript and file name,
each field checked by `validate_extracted_data`, when missing
(absent / empty / `"N/A"` / zero for the numeric fields), is set to its
fallback-recovered value when the fallback produces one; when the
fallback produces nothing the field keeps its original value — including
a literal `"N/A"` — and is never reset to a type default. -/
theorem C1_fallback_or_keep (ed : JObj) (t fn : String) :
    (dget (validate_extracted_data ed t fn) "invoice_no" =
      if missingStr (dget ed "invoice_no") then
        Option.or ((invoiceFallback t).map (fun g => JVal.jstr (String.mk g)))
          (dget ed "invoice_no")
      else dget ed "invoice_no") ∧
    (dget (validate_extracted_data ed t fn) "gstin_no" =
      if missingStr (dget ed "gstin_no") then
        Option.or ((gstinFallback t).map (fun g => JVal.jstr (String.mk g)))
          (dget ed "gstin_no")
      else dget ed "gstin_no") ∧
    (dget (validate_extracted_data ed t fn) "grand_total" =
      if missingNum (dget ed "grand_total") then
        Option.or ((grandTotalFallback t).map JVal.jnum) (dget ed "grand_total")
      else dget ed "grand_total") ∧
    (dget (validate_extracted_data ed t fn) "total_gst" =
      if missingNum (dget ed "total_gst") then
        Option.or
          (if (calculate_total_gst_from_text t).isPos then
            some (JVal.jnum (calculate_total_gst_from_text t))
          else none)
          (dget ed "total_gst")
      else dget ed "total_gst") ∧
    (dget (validate_extracted_data ed t fn) "date" =
      if missingStr (dget ed "date") then
        Option.or ((dateFallback t).map (fun g => JVal.jstr (String.mk g))) (dget ed "date")
      else dget ed "date") ∧
    (dget (validate_extracted_data ed t fn) "place" =
      if missingStr (dget ed "place") then
        Option.or ((placeFallback t).map (fun g => JVal.jstr (String.mk g))) (dget ed "place")
      else dget ed "place") ∧
    (dget (validate_extracted_data ed t fn) "state" =
      if missingStr (dget ed "state") then
        Option.or ((stateFallback t).map JVal.jstr) (dget ed "state")
      else dget ed "state") :=
  ⟨validateGet_invoice ed t fn, validateGet_gstin ed t fn, validateGet_grand ed t fn,
   validateGet_gst ed t fn, validateGet_date ed t fn, validateGet_place ed t fn,
   validateGet_state ed t fn⟩

/-- Claim C2, counterexample: with the empty parsed object and the
non-empty transcript `"zzz"` the validated record has no `invoice_no`
field at all, so the record is not fully populated with defaults. -/
theorem C2_counterexample :
    dget (validate_extracted_data .onil "zzz" "f") "invoice_no" = none ∧
    dget (validate_extracted_data .onil "zzz" "f") "seller_name" = none ∧
    dget (validate_extracted_data .onil "zzz" "f") "items" = some (.jarr .anil) :=
  ⟨by decide, by decide, by decide⟩

/-- Claim C2, amended: after validation only the `items` field is
guaranteed present (defaulted to the empty sequence when absent); every
other field is present in the returned record only if it was supplied by
the model or recovered by a fallback, and fields present on entry stay
present. -/
theorem C2_items_only_guarantee (ed : JObj) (t fn : String) :
    (dget (validate_extracted_data ed t fn) "items").isSome = true ∧
    (∀ k : String, (dget ed k).isSome = true →
      (dget (validate_extracted_data ed t fn) k).isSome = true) := by
  constructor
  · rw [validateGet_items]
    cases h : dget ed "items" <;> simp [h]
  · intro k hk
    simp only [validate_extracted_data]
    exact condStep_preserves_isSome _ _ _ _ _
      (condStep_preserves_isSome _ _ _ _ _
        (condStep_preserves_isSome _ _ _ _ _
          (condStep_preserves_isSome _ _ _ _ _
            (condStep_preserves_isSome _ _ _ _ _
              (condStep_preserves_isSome _ _ _ _ _
                (condStep_preserves_isSome _ _ _ _ _
                  (condStep_preserves_isSome _ _ _ _ _ hk)))))))

/-- Witness for `C2_items_only_guarantee` at a concrete record. -/
theorem C2_items_only_guarantee_witness :
    (dget (validate_extracted_data (.ocons "seller_name" (.jstr "S") .onil) "zzz" "f")
        "items").isSome = true ∧
    (dget (validate_extracted_data (.ocons "seller_name" (.jstr "S") .onil) "zzz" "f")
        "seller_name").isSome = true :=
  ⟨(C2_items_only_guarantee (.ocons "seller_name" (.jstr "S") .onil) "zzz" "f").1,
   (C2_items_only_guarantee (.ocons "seller_name" (.jstr "S") .onil) "zzz" "f").2
     "seller_name" (by decide)⟩

/-- Claim C9: frame property of `validate_extracted_data` — every field
whose model-provided value is not missing (present, non-empty, not
`"N/A"`, and nonzero for the numeric fields) is returned unchanged, and
fields outside the eight checked keys are never touched at all. -/
theorem C9_frame (ed : JObj) (t fn : String) :
    (∀ s : String, s ≠ "" → s ≠ "N/A" → dget ed "invoice_no" = some (.jstr s) →
        dget (validate_extracted_data ed t fn) "invoice_no" = some (.jstr s)) ∧
    (∀ s : String, s ≠ "" → s ≠ "N/A" → dget ed "gstin_no" = some (.jstr s) →
        dget (validate_extracted_data ed t fn) "gstin_no" = some (.jstr s)) ∧
    (∀ s : String, s ≠ "" → s ≠ "N/A" → dget ed "date" = some (.jstr s) →
        dget (validate_extracted_data ed t fn) "date" = some (.jstr s)) ∧
    (∀ s : String, s ≠ "" → s ≠ "N/A" → dget ed "place" = some (.jstr s) →
        dget (validate_extracted_data ed t fn) "place" = some (.jstr s)) ∧
    (∀ s : String, s ≠ "" → s ≠ "N/A" → dget ed "state" = some (.jstr s) →
        dget (validate_extracted_data ed t fn) "state" = some (.jstr s)) ∧
    (∀ d : Dec, d.isZero = false → dget ed "grand_total" = some (.jnum d) →
        dget (validate_extracted_data ed t fn) "grand_total" = some (.jnum d)) ∧
    (∀ d : Dec, d.isZero = false → dget ed "total_gst" = some (.jnum d) →
        dget (validate_extracted_data ed t fn) "total_gst" = some (.jnum d)) ∧
    (∀ v : JVal, dget ed "items" = some v →
        dget (validate_extracted_data ed t fn) "items" = some v) ∧
    (∀ k : String,
        k ∉ (["invoice_no", "gstin_no", "grand_total", "total_gst",
              "date", "place", "state", "items"] : List String) →
        dget (validate_extracted_data ed t fn) k = dget ed k) := by
  refine ⟨?_, ?_, ?_, ?_, ?_, ?_, ?_, ?_, validateGet_other ed t fn⟩
  · intro s h1 h2 h3
    rw [validateGet_invoice, h3, missingStr_jstr_false s h1 h2]
    simp
  · intro s h1 h2 h3
    rw [validateGet_gstin, h3, missingStr_jstr_false s h1 h2]
    simp
  · intro s h1 h2 h3
    rw [validateGet_date, h3, missingStr_jstr_false s h1 h2]
    simp
  · intro s h1 h2 h3
    rw [validateGet_place, h3, missingStr_jstr_false s h1 h2]
    simp
  · intro s h1 h2 h3
    rw [validateGet_state, h3, missingStr_jstr_false s h1 h2]
    simp
  · intro d h1 h3
    rw [validateGet_grand, h3, missingNum_jnum_false d h1]
    simp
  · intro d h1 h3
    rw [validateGet_gst, h3, missingNum_jnum_false d h1]
    simp
  · intro v hv
    rw [validateGet_items, hv]
    simp

/-- Witness for `C9_frame` at a concrete record and transcript where
every fallback would have fired had the fields been missing. -/
theorem C9_frame_witness :
    dget (validate_extracted_data
        (.ocons "invoice_no" (.jstr "INV-9")
          (.ocons "grand_total" (.jnum ⟨5, 0⟩) (.ocons "items" (.jarr .anil) .onil)))
        "Invoice No: ZZ1 Grand Total: 99" "f") "invoice_no" = some (.jstr "INV-9") ∧
    dget (validate_extracted_data
        (.ocons "invoice_no" (.jstr "INV-9")
          (.ocons "grand_total" (.jnum ⟨5, 0⟩) (.ocons "items" (.jarr .anil) .onil)))
        "Invoice No: ZZ1 Grand Total: 99" "f") "grand_total" = some (.jnum ⟨5, 0⟩) ∧
    dget (validate_extracted_data
        (.ocons "invoice_no" (.jstr "INV-9")
          (.ocons "grand_total" (.jnum ⟨5, 0⟩) (.ocons "items" (.jarr .anil) .onil)))
        "Invoice No: ZZ1 Grand Total: 99" "f") "items" = some (.jarr .anil) ∧
    dget (validate_extracted_data
        (.ocons "invoice_no" (.jstr "INV-9")
          (.ocons "grand_total" (.jnum ⟨5, 0⟩) (.ocons "items" (.jarr .anil) .onil)))
        "Invoice No: ZZ1 Grand Total: 99" "f") "seller_name" =
      dget (.ocons "invoice_no" (.jstr "INV-9")
          (.ocons "grand_total" (.jnum ⟨5, 0⟩) (.ocons "items" (.jarr .anil) .onil)))
        "seller_name" :=
  ⟨(C9_frame _ "Invoice No: ZZ1 Grand Total: 99" "f").1 "INV-9"
      (by decide) (by decide) (by decide),
   (C9_frame _ "Invoice No: ZZ1 Grand Total: 99" "f").2.2.2.2.2.1 ⟨5, 0⟩
      (by decide) (by decide),
   (C9_frame _ "Invoice No: ZZ1 Grand Total: 99" "f").2.2.2.2.2.2.2.1 (.jarr .anil)
      (by decide),
   (C9_frame _ "Invoice No: ZZ1 Grand Total: 99" "f").2.2.2.2.2.2.2.2 "seller_name"
      (by decide)⟩

/-! ## Claims C5 and C6 (date normalization) -/

/-- Claim C5: the three inputs `"04-Mar-2020"`, `"04/03/2020"` and
`"2020.03.04"` all normalize to exactly `"2020.03.04"`. -/
theorem C5_date_examples :
    format_date_to_ymd "04-Mar-2020" = "2020.03.04" ∧
    format_date_to_ymd "04/03/2020" = "2020.03.04" ∧
    format_date_to_ymd "2020.03.04" = "2020.03.04" :=
  ⟨by decide, by decide, by decide⟩

/-- Claim C6, counterexample: on `"a/b"` no format template parses and no
month-name substring occurs, yet the function returns the cleaned string
`"a-b"`, not the exact original input. -/
theorem C6_counterexample :
    tryFormats formats_to_try (cleanDate "a/b".toList) = none ∧
    (month_map.all fun mp => !(pyInStr mp.1.toList (lowerL "a/b".toList))) = true ∧
    (month_map.all fun mp => !(pyInStr mp.1.toList (lowerL (cleanDate "a/b".toList)))) = true ∧
    format_date_to_ymd "a/b" = "a-b" ∧
    ("a-b" : String) ≠ "a/b" :=
  ⟨by decide, by decide, by decide, by decide, by decide⟩

/-- Claim C6, amended: when no format template parses the cleaned input
and the manual month scan produces nothing, `format_date_to_ymd` returns
the cleaned input — the input stripped of surrounding whitespace with
`/` and `.` replaced by `-` — rather than the character-for-character
original, and it never raises. -/
theorem C6_returns_cleaned (s : String)
    (h1 : tryFormats formats_to_try (cleanDate s.toList) = none)
    (h2 : monthScanAux month_map (cleanDate s.toList) = none) :
    format_date_to_ymd s = String.mk (cleanDate s.toList) := by
  simp only [format_date_to_ymd, h1, h2]

/-- Witness for `C6_returns_cleaned` at `"a/b"`. -/
theorem C6_returns_cleaned_witness :
    tryFormats formats_to_try (cleanDate "a/b".toList) = none ∧
    monthScanAux month_map (cleanDate "a/b".toList) = none ∧
    format_date_to_ymd "a/b" = String.mk (cleanDate "a/b".toList) :=
  ⟨by decide, by decide, C6_returns_cleaned "a/b" (by decide) (by decide)⟩

/-! ## Claims C3 and C10 (GST total fallback) -/

/-- Value carried by either outcome of a GST accumulation (the returned
total, whether the `try` block completed or raised). -/
def exceptOut : Except Dec Dec → Dec
  | .ok t => t
  | .error t => t

theorem addMatches_num_nonneg : ∀ (ms : List (List Char)) (acc : Dec), 0 ≤ acc.num →
    0 ≤ (exceptOut (addMatches acc ms)).num
  | [], acc, h => by simpa [addMatches, exceptOut] using h
  | m :: ms, acc, h => by
    simp only [addMatches]
    cases hp : pyFloat? (pyReplace m [','] []) with
    | none => simpa [exceptOut] using h
    | some q =>
      exact addMatches_num_nonneg ms (Dec.add acc q)
        (Dec.num_add_nonneg _ _ h (pyFloat?_num_nonneg _ _ hp))

theorem addPatterns_num_nonneg : ∀ (ps : List Pat) (acc : Dec) (text : String), 0 ≤ acc.num →
    0 ≤ (exceptOut (addPatterns acc ps text)).num
  | [], acc, text, h => by simpa [addPatterns, exceptOut] using h
  | p :: ps, acc, text, h => by
    simp only [addPatterns]
    cases hm : addMatches acc (findall p text) with
    | ok acc' =>
      have hn := addMatches_num_nonneg (findall p text) acc h
      rw [hm] at hn
      exact addPatterns_num_nonneg ps acc' text (by simpa [exceptOut] using hn)
    | error e =>
      have hn := addMatches_num_nonneg (findall p text) acc h
      rw [hm] at hn
      simpa [exceptOut] using hn

/-- Claim C3: `calculate_total_gst_from_text` tries its three methods in
strict order — explicit Total-GST labels, then CGST+SGST, then IGST —
accepting the first positive running total and skipping the rest; and it
computes `311.18` on the split CGST/SGST transcript and `381.36` on the
IGST-only transcript. -/
theorem C3_gst_method_order :
    (∀ (text : String) (t1 : Dec),
        addPatterns Dec.zero total_gst_patterns text = .ok t1 → t1.isPos = true →
        calculate_total_gst_from_text text = t1) ∧
    (∀ (text : String) (t1 t2a t2 : Dec),
        addPatterns Dec.zero total_gst_patterns text = .ok t1 → t1.isPos = false →
        addMatches t1 (findall cgst_pattern text) = .ok t2a →
        addMatches t2a (findall sgst_pattern text) = .ok t2 → t2.isPos = true →
        calculate_total_gst_from_text text = t2) ∧
    (∀ (text : String) (t1 t2a t2 t3 : Dec),
        addPatterns Dec.zero total_gst_patterns text = .ok t1 → t1.isPos = false →
        addMatches t1 (findall cgst_pattern text) = .ok t2a →
        addMatches t2a (findall sgst_pattern text) = .ok t2 → t2.isPos = false →
        addMatches t2 (findall igst_pattern text) = .ok t3 →
        calculate_total_gst_from_text text = t3) ∧
    (calculate_total_gst_from_text "CGST @9%: ₹155.59\nSGST @9%: ₹155.59").val = 31118 / 100 ∧
    (calculate_total_gst_from_text "IGST @18%: ₹381.36").val = 38136 / 100 := by
  refine ⟨?_, ?_, ?_, ?_, ?_⟩
  · intro text t1 h1 h2
    unfold calculate_total_gst_from_text
    simp [h1, h2]
  · intro text t1 t2a t2 h1 h2 h3 h4 h5
    unfold calculate_total_gst_from_text
    simp [h1, h2, h3, h4, h5]
  · intro text t1 t2a t2 t3 h1 h2 h3 h4 h5 h6
    unfold calculate_total_gst_from_text
    simp [h1, h2, h3, h4, h5, h6]
  · have e1 : calculate_total_gst_from_text "CGST @9%: ₹155.59\nSGST @9%: ₹155.59" =
        ⟨3111800, 4⟩ := by decide
    rw [e1]
    norm_num [Dec.val]
  · have e2 : calculate_total_gst_from_text "IGST @18%: ₹381.36" = ⟨38136, 2⟩ := by decide
    rw [e2]
    norm_num [Dec.val]

/-- Witness for `C3_gst_method_order`: the third method fires on the
IGST-only transcript after the first two produce zero. -/
theorem C3_gst_method_order_witness :
    calculate_total_gst_from_text "IGST @18%: ₹381.36" = ⟨38136, 2⟩ :=
  C3_gst_method_order.2.2.1 "IGST @18%: ₹381.36" Dec.zero Dec.zero Dec.zero ⟨38136, 2⟩
    (by rfl) (by rfl) (by rfl) (by rfl) (by rfl) (by rfl)

/-- Claim C10: `calculate_total_gst_from_text` always returns a value
(conversion failures are caught internally, yielding the partial sum
accumulated so far) and that value is never negative. -/
theorem C10_gst_nonneg (text : String) : 0 ≤ (calculate_total_gst_from_text text).val := by
  apply Dec.val_nonneg_of_num
  have hz : (0 : Int) ≤ Dec.zero.num := by decide
  have H1 := addPatterns_num_nonneg total_gst_patterns Dec.zero text hz
  unfold calculate_total_gst_from_text
  split
  · rename_i t h1
    rw [h1] at H1
    simpa [exceptOut] using H1
  · rename_i t1 h1
    rw [h1] at H1
    have ht1 : 0 ≤ t1.num := by simpa [exceptOut] using H1
    split
    · exact ht1
    · have H2 := addMatches_num_nonneg (findall cgst_pattern text) t1 ht1
      split
      · rename_i t h2
        rw [h2] at H2
        simpa [exceptOut] using H2
      · rename_i t2a h2
        rw [h2] at H2
        have ht2a : 0 ≤ t2a.num := by simpa [exceptOut] using H2
        have H3 := addMatches_num_nonneg (findall sgst_pattern text) t2a ht2a
        split
        · rename_i t h3
          rw [h3] at H3
          simpa [exceptOut] using H3
        · rename_i t2 h3
          rw [h3] at H3
          have ht2 : 0 ≤ t2.num := by simpa [exceptOut] using H3
          split
          · exact ht2
          · have H4 := addMatches_num_nonneg (findall igst_pattern text) t2 ht2
            split
            · rename_i t h4
              rw [h4] at H4
              simpa [exceptOut] using H4
            · rename_i t3 h4
              rw [h4] at H4
              simpa [exceptOut] using H4

/-! ## Claim C8 (`calculate_summary_statistics`) -/

theorem sumDec_val (l : List Dec) : (sumDec l).val = (l.map Dec.val).sum := by
  have gen : ∀ (l : List Dec) (a : Dec), (l.foldl Dec.add a).val = a.val + (l.map Dec.val).sum := by
    intro l
    induction l with
    | nil => intro a; simp
    | cons x xs ih =>
      intro a
      simp only [List.foldl, List.map, List.sum_cons, ih, Dec.val_add]
      ring
  simpa [sumDec, Dec.val_zero] using gen l Dec.zero

/-- Claim C8: `calculate_summary_statistics` is a pure deterministic
function of the record list; `total_invoices` is the list length,
`total_grand_total` and `total_gst_amount` are the exact sums of the
records' fields (absent fields counting as `0`), and
`total_taxable_amount` equals `total_grand_total - total_gst_amount`
exactly. -/
theorem C8_summary_algebra (invoices : List JObj) :
    calculate_summary_statistics invoices = calculate_summary_statistics invoices ∧
    (calculate_summary_statistics invoices).total_invoices = invoices.length ∧
    (calculate_summary_statistics invoices).total_grand_total.val =
      (invoices.map (fun i => (getNumD i "grand_total").val)).sum ∧
    (calculate_summary_statistics invoices).total_gst_amount.val =
      (invoices.map (fun i => (getNumD i "total_gst").val)).sum ∧
    (calculate_summary_statistics invoices).total_taxable_amount.val =
      (calculate_summary_statistics invoices).total_grand_total.val -
        (calculate_summary_statistics invoices).total_gst_amount.val := by
  refine ⟨rfl, rfl, ?_, ?_, ?_⟩
  · simp only [calculate_summary_statistics, sumDec_val, List.map_map]
    rfl
  · simp only [calculate_summary_statistics, sumDec_val, List.map_map]
    rfl
  · simp [calculate_summary_statistics, Dec.val_sub]

/-! ## Claim C4 (`parse_gemini_response`) -/

/-- Claim C4, counterexample: the reply `["{", "```}"]` is valid JSON as
a whole and contains both braces, its bracket slice is invalid JSON, yet
the decoder does not fall back to the whole reply — it strips the
backticks first and returns `["{", "}"]`, a different value. -/
theorem C4_counterexample :
    jsonLoads? "[\"\x7b\", \"```\x7d\"]" =
      some (.jarr (.acons (.jstr "\x7b") (.acons (.jstr "```\x7d") .anil))) ∧
    pyFindIdx "[\"\x7b\", \"```\x7d\"]".toList '\x7b' ≠ -1 ∧
    pyRFindIdx "[\"\x7b\", \"```\x7d\"]".toList '\x7d' ≠ -1 ∧
    jsonLoads? (String.mk (geminiSlice "[\"\x7b\", \"```\x7d\"]".toList)) = none ∧
    parse_gemini_response "[\"\x7b\", \"```\x7d\"]" =
      some (.jarr (.acons (.jstr "\x7b") (.acons (.jstr "\x7d") .anil))) ∧
    JVal.jarr (.acons (.jstr "\x7b") (.acons (.jstr "\x7d") .anil)) ≠
      JVal.jarr (.acons (.jstr "\x7b") (.acons (.jstr "```\x7d") .anil)) :=
  ⟨by decide, by decide, by decide, by decide, by decide, by decide⟩

/-- Claim C4, amended: step 1 decodes the bracket slice whenever the
reply contains a `{` (the `}` test is vacuous because `rfind + 1` is
compared with `-1`); when the slice fails to decode, the algorithm goes
directly to fence-stripping — decoding the entire raw reply is attempted
only when the reply contains no `{`; when everything fails the result is
`none`, never an exception. -/
theorem C4_parse_order (r : String) :
    parse_gemini_response r =
      if pyFindIdx r.toList '\x7b' ≠ -1 then
        Option.or (jsonLoads? (String.mk (geminiSlice r.toList)))
          (jsonLoads? (String.mk (geminiCleaned r.toList)))
      else
        Option.or (jsonLoads? r) (jsonLoads? (String.mk (geminiCleaned r.toList))) := by
  have hend : pyRFindIdx r.toList '\x7d' + 1 ≠ -1 := by
    unfold pyRFindIdx
    cases h : r.toList.reverse.findIdx? (· == '\x7d') with
    | none => simp
    | some i => simp; omega
  unfold parse_gemini_response
  by_cases hs : pyFindIdx r.toList '\x7b' = -1
  · simp only [hs, if_pos, if_neg, ne_eq, not_true_eq_false, false_and, if_false,
      not_not]
    cases hw : jsonLoads? r <;> simp [Option.or, hs]
  · simp only [ne_eq, hs, not_false_eq_true, hend, and_self, if_true, true_and]
    cases hw : jsonLoads? (String.mk (geminiSlice r.toList)) <;>
      simp [Option.or, hw, hs, hend]

/-! ## Claim C7 (the GSTIN structural regex) -/

/-- Pointwise one-character-class check: `cs` starts with one character
for each class in `ps`. -/
def pointwiseOK : List (Char → Bool) → List Char → Bool
  | [], _ => true
  | _ :: _, [] => false
  | p :: ps, c :: cs => p c && pointwiseOK ps cs

/-- Shape stated by the claim's words (spec side of the comparison, not
taken from the source): 2 digits + 5 letters + 4 digits + 1 letter +
1 alphanumeric + literal `Z` + 1 alphanumeric, 15 characters in all
(letters and alphanumerics read over the uppercase invoice alphabet, the
reading most favourable to the claim). -/
def specGstinClasses : List (Char → Bool) :=
  List.replicate 2 asciiDigit ++ List.replicate 5 asciiUpper ++
    List.replicate 4 asciiDigit ++
    [asciiUpper, fun c => asciiDigit c || asciiUpper c, (· == 'Z'),
     fun c => asciiDigit c || asciiUpper c]

/-- Claim-side shape predicate on a 15-character string. -/
def specGstinShape (cs : List Char) : Bool :=
  cs.length == 15 && pointwiseOK specGstinClasses cs

theorem pointwiseOK_le_length : ∀ (ps : List (Char → Bool)) (cs : List Char),
    pointwiseOK ps cs = true → ps.length ≤ cs.length
  | [], _, _ => Nat.zero_le _
  | _ :: _, [], h => by simp [pointwiseOK] at h
  | _ :: ps, _ :: cs, h => by
    simp only [pointwiseOK, Bool.and_eq_true] at h
    simpa using pointwiseOK_le_length ps cs h.2

theorem pointwiseOK_take : ∀ (ps : List (Char → Bool)) (cs : List Char),
    pointwiseOK ps cs = true → pointwiseOK ps (cs.take ps.length) = true
  | [], _, _ => rfl
  | _ :: _, [], h => h
  | p :: ps, c :: cs, h => by
    simp only [pointwiseOK, Bool.and_eq_true] at h
    simp [List.take, pointwiseOK, h.1, pointwiseOK_take ps cs h.2]

theorem mseq_ones {β : Type} : ∀ (ps : List (Char → Bool)) (f : Nat) (cs : List Char)
    (k : List Char → Option β), ps.length < f →
    mseq f (ps.map SItem.one) cs k =
      if pointwiseOK ps cs then k (cs.drop ps.length) else none := by
  intro ps
  induction ps with
  | nil =>
    intro f cs k h
    match f, h with
    | f + 1, _ => simp [mseq, pointwiseOK]
  | cons p ps ih =>
    intro f cs k h
    match f, h with
    | f + 1, h =>
      cases cs with
      | nil => simp [mseq, pointwiseOK]
      | cons c cs' =>
        simp only [List.map_cons, mseq]
        by_cases hp : p c = true
        · rw [if_pos hp, ih f cs' k (Nat.lt_of_succ_lt_succ h)]
          simp [pointwiseOK, hp]
        · have hp' : p c = false := by simpa using hp
          rw [if_neg hp]
          simp [pointwiseOK, hp']

theorem gstinClasses_length : gstinClasses.length = 15 := by
  simp [gstinClasses]

theorem matchAt_gstin (cs : List Char) :
    matchAt gstin_pattern cs =
      if pointwiseOK gstinClasses cs then
        some ⟨cs.take 15, none, cs.drop 15⟩
      else none := by
  unfold matchAt gstin_pattern
  rw [mseq_ones gstinClasses _ cs _ (by simp [mfuel]; omega)]
  by_cases hpt : pointwiseOK gstinClasses cs = true
  · have h15 : (15 : Nat) ≤ cs.length := by
      have := pointwiseOK_le_length gstinClasses cs hpt
      rwa [gstinClasses_length] at this
    rw [if_pos hpt, if_pos hpt, gstinClasses_length]
    simp only [mfuel, List.length_nil, Nat.zero_add, mseq, List.isEmpty_nil,
      List.length_drop]
    have heq : cs.length - (cs.length - 15) = 15 := by omega
    rw [heq]
    simp
  · rw [if_neg hpt, if_neg hpt]

theorem find?_append_match : ∀ (l₁ l₂ : List α) (p : α → Bool),
    (l₁ ++ l₂).find? p =
      (match l₁.find? p with
       | some a => some a
       | none => l₂.find? p) := by
  intro l₁ l₂ p
  rw [List.find?_append]
  cases l₁.find? p <;> simp [Option.or]

theorem range_find?_spec : ∀ (n : Nat) (p : Nat → Bool) (i : Nat),
    (List.range n).find? p = some i → p i = true ∧ ∀ j, j < i → p j = false := by
  intro n
  induction n with
  | zero =>
    intro p i h
    rw [List.range_zero] at h
    simp [List.find?] at h
  | succ n ih =>
    intro p i h
    rw [List.range_succ, find?_append_match] at h
    cases hf : (List.range n).find? p with
    | some i2 =>
      rw [hf] at h
      have h2 : i2 = i := Option.some.inj h
      subst h2
      exact ih p i2 hf
    | none =>
      rw [hf] at h
      simp only [List.find?_singleton] at h
      have hall := List.find?_eq_none.mp hf
      split at h
      · rename_i hpn
        have h2 : n = i := Option.some.inj h
        subst h2
        refine ⟨hpn, fun j hj => ?_⟩
        have := hall j (List.mem_range.mpr hj)
        simpa using this
      · cases h

theorem searchL_gstin : ∀ (cs : List Char),
    searchL gstin_pattern cs =
      (match (List.range (cs.length + 1)).find?
          (fun i => pointwiseOK gstinClasses (cs.drop i)) with
       | some i => some ⟨(cs.drop i).take 15, none, (cs.drop i).drop 15⟩
       | none => none) := by
  intro cs
  induction cs with
  | nil =>
    have h0 : pointwiseOK gstinClasses ([] : List Char) = false := by
      simp [gstinClasses, pointwiseOK, List.replicate]
    simp [searchL, matchAt_gstin, h0, List.range_succ]
  | cons c cs' ih =>
    simp only [searchL, matchAt_gstin]
    rw [List.range_succ_eq_map, List.find?_cons]
    cases h0 : pointwiseOK gstinClasses (c :: cs') with
    | true => simp [h0]
    | false =>
      have hstep : (fun i => pointwiseOK gstinClasses ((c :: cs').drop i)) ∘ Nat.succ =
          fun i => pointwiseOK gstinClasses (cs'.drop i) := by
        funext i
        simp [Function.comp]
      simp only [List.drop_zero, h0, cond_false, List.find?_map, hstep]
      rw [ih]
      cases hf : (List.range (cs'.length + 1)).find?
          (fun i => pointwiseOK gstinClasses (cs'.drop i)) <;> simp [hf]

/-- Claim C7, counterexample: `"12ABCDE1234F0Z5"` has the claim's shape
(its 13th character `'0'` is alphanumeric) but the code's regex — whose
13th-position class is `[1-9A-Z]`, excluding `'0'` — finds no match in a
transcript consisting of exactly that string, and a missing `gstin_no` is
left unassigned on it. -/
theorem C7_counterexample :
    specGstinShape "12ABCDE1234F0Z5".toList = true ∧
    research gstin_pattern "12ABCDE1234F0Z5" = none ∧
    missingStr (dget JObj.onil "gstin_no") = true ∧
    dget (validate_extracted_data .onil "12ABCDE1234F0Z5" "f") "gstin_no" = none :=
  ⟨by decide, by decide, by decide, by decide⟩

/-- Claim C7, amended: the code's tax-id regex matches a transcript
exactly when some position starts a 15-character substring whose shape is
2 digits + 5 uppercase letters + 4 digits + 1 uppercase letter + 1
character from `1-9A-Z` (a digit `1`-`9` or uppercase letter — `'0'` is
excluded, unlike the claim's "alphanumeric") + literal `Z` + 1 uppercase
alphanumeric; the leftmost such substring is the match; and whenever the
model-provided `gstin_no` is missing (absent, empty or `"N/A"`), that
first structural match — when one exists — is assigned to `gstin_no`. -/
theorem C7_gstin_shape (s : String) :
    ((research gstin_pattern s).isSome =
      (List.range (s.toList.length + 1)).any
        (fun i => pointwiseOK gstinClasses (s.toList.drop i))) ∧
    (∀ m : MRes, research gstin_pattern s = some m →
        ∃ i, m.whole = (s.toList.drop i).take 15 ∧
          pointwiseOK gstinClasses (s.toList.drop i) = true ∧
          pointwiseOK gstinClasses m.whole = true ∧
          ∀ j, j < i → pointwiseOK gstinClasses (s.toList.drop j) = false) ∧
    (∀ (ed : JObj) (fn : String), missingStr (dget ed "gstin_no") = true →
        dget (validate_extracted_data ed s fn) "gstin_no" =
          Option.or ((gstinFallback s).map (fun g => JVal.jstr (String.mk g)))
            (dget ed "gstin_no")) := by
  refine ⟨?_, ?_, ?_⟩
  · rw [research, searchL_gstin]
    cases hf : (List.range (s.toList.length + 1)).find?
        (fun i => pointwiseOK gstinClasses (s.toList.drop i)) with
    | some i =>
      have hp := (range_find?_spec _ _ _ hf).1
      have hmem := List.mem_of_find?_eq_some hf
      simp only [Option.isSome_some, eq_comm (a := true), List.any_eq_true]
      exact ⟨i, hmem, hp⟩
    | none =>
      have hall := List.find?_eq_none.mp hf
      simp only [Option.isSome_none]
      symm
      rw [Bool.eq_false_iff]
      intro hany
      obtain ⟨i, hmem, hp⟩ := List.any_eq_true.mp hany
      exact absurd hp (hall i hmem)
  · intro m hm
    rw [research, searchL_gstin] at hm
    cases hf : (List.range (s.toList.length + 1)).find?
        (fun i => pointwiseOK gstinClasses (s.toList.drop i)) with
    | none => rw [hf] at hm; cases hm
    | some i =>
      rw [hf] at hm
      cases hm
      obtain ⟨hp, hmin⟩ := range_find?_spec _ _ _ hf
      refine ⟨i, rfl, hp, ?_, hmin⟩
      have := pointwiseOK_take gstinClasses (s.toList.drop i) hp
      rwa [gstinClasses_length] at this
  · intro ed fn h
    rw [validateGet_gstin, if_pos h]

/-- Witness for `C7_gstin_shape` at a transcript embedding one valid
code-shape GSTIN. -/
theorem C7_gstin_shape_witness :
    ((research gstin_pattern "xx12ABCDE1234F1Z5yy").isSome =
      (List.range ("xx12ABCDE1234F1Z5yy".toList.length + 1)).any
        (fun i => pointwiseOK gstinClasses ("xx12ABCDE1234F1Z5yy".toList.drop i))) ∧
    dget (validate_extracted_data .onil "xx12ABCDE1234F1Z5yy" "f") "gstin_no" =
      some (.jstr "12ABCDE1234F1Z5") :=
  ⟨(C7_gstin_shape "xx12ABCDE1234F1Z5yy").1, by
    have h := (C7_gstin_shape "xx12ABCDE1234F1Z5yy").2.2 JObj.onil "f" (by decide)
    rw [h]
    decide⟩
